import Mathlib

/-!
Verification of the pump.fun auto-sell bot (`src/pump_bot.py`, `src/app.py`).

This file shallowly embeds the bot's state store, creation scanner, curve
reader and per-token decision step as pure Lean functions and proves the
frozen specification claims about them.

Modelling conventions:
* Python `Decimal` arithmetic is modelled by `ℚ`.  The only `Decimal`
  operations the bot performs in the trigger path are division,
  multiplication, subtraction, `max` and comparisons, each applied once;
  both the code expression and the specification expression are built from
  the same operations in the same order, so the exact-rational model is
  faithful for the equalities proved here.
* Network and file I/O are made explicit: each RPC call's outcome is an
  input to the embedded function (an inductive mirroring the branches the
  Python code distinguishes), and the state file is an explicit
  `Option String` (file contents, or `none` when absent).
* The decision step over one token (the body of the `for mint_str ...`
  loop inside `monitor_and_sell`) is embedded as a function from the
  token's record and the cycle's environment to the updated record plus an
  event trace recording, in order, every `save_state` invocation (with the
  record as persisted), every `execute_sell` invocation (with its amount
  arguments) and every retry sleep.  The registry lock serialises all
  mutation (a single mutator thread exists), so the per-token step is
  sequential.
-/

namespace PumpBot

/-- Token lifecycle status values used in `pump_bot.py`
(`"monitoring"`, `"sell_failed"`, `"sold"`, `"missed_raydium"`,
`"emptied"`, `"failed_max_retries"`). -/
inductive Status
  | monitoring
  | sell_failed
  | sold
  | missed_raydium
  | emptied
  | failed_max_retries
deriving DecidableEq, Repr

/-- One tracked token record: the fields written at registration in
`monitor_and_sell` (pump_bot.py lines 425-429).  `last_value_sol` is stored
in the Python dict as `str(Decimal)`; it is modelled by its rational
value. -/
structure TokenRecord where
  bonding_curve : String
  created_at : ℚ
  status : Status
  dev_ata : String
  sell_attempts : ℕ
  decimals : ℕ
  sell_tx : Option String
  last_value_sol : ℚ
  last_check_time : ℚ
deriving DecidableEq, Repr

/-- The shared `monitored_tokens` dict, as an insertion-ordered association
list (Python dicts preserve insertion order and the bot never deletes
keys). -/
abbrev Registry := List (String × TokenRecord)

/-- Python `dict` key lookup on the registry. -/
def lookupReg (reg : Registry) (k : String) : Option TokenRecord :=
  match reg with
  | [] => none
  | (k', v) :: rest => if k' = k then some v else lookupReg rest k

/-- Outcome of the `get_token_account_balance` RPC call as distinguished by
the branches of `get_token_balance` (pump_bot.py lines 159-174):
a response (whose `value.amount` string may be absent or malformed), a
`SolanaRpcException` whose text marks the account as missing, any other
`SolanaRpcException`, or an unexpected exception. -/
inductive RpcBalanceResult
  | response (amount : Option String)
  | rpcErrorNotFound
  | rpcErrorOther
  | unexpectedError
deriving DecidableEq, Repr

/-- Python `str.isdigit` restricted to ASCII digits (RPC amount strings are
ASCII decimal). -/
def strIsDigit (s : String) : Bool :=
  s.length > 0 && s.toList.all Char.isDigit

/-- Python `int(s)` on a digit string. -/
def strToNat (s : String) : ℕ :=
  s.toList.foldl (fun acc c => acc * 10 + (c.toNat - 48)) 0

/-- `get_token_balance` (pump_bot.py lines 159-174): the raw token amount
on success, `0` when the response has no usable amount or the account does
not exist, `-1` on any other RPC or unexpected error. -/
def get_token_balance (resp : RpcBalanceResult) : ℤ :=
  match resp with
  | .response (some amount) =>
      if strIsDigit amount then (strToNat amount : ℤ) else 0
  | .response none => 0
  | .rpcErrorNotFound => 0
  | .rpcErrorOther => -1
  | .unexpectedError => -1

/-- Parsed bonding-curve account state plus derived price, the dict
returned by `get_bonding_curve_state` (pump_bot.py lines 211-219). -/
structure CurveState where
  virtual_token_reserves : ℕ
  virtual_sol_reserves : ℕ
  real_token_reserves : ℕ
  real_sol_reserves : ℕ
  token_total_supply : ℕ
  is_complete : Bool
  price_sol_per_token : ℚ
deriving DecidableEq, Repr

/-- Borsh little-endian `U64` read of 8 bytes at `off` (bytes past the end
read as 0; callers check the length first, as the Python code does). -/
def readU64 (data : List ℕ) (off : ℕ) : ℕ :=
  (List.range 8).foldl (fun acc i => acc + data.getD (off + i) 0 * 256 ^ i) 0

/-- Byte size of `BONDING_CURVE_LAYOUT` (five `U64` plus one `Bool`). -/
def bondingCurveLayoutSize : ℕ := 41

/-- `get_bonding_curve_state` (pump_bot.py lines 182-227) on the account
data bytes the RPC returned (`none` models every path on which the Python
function returns `None`: missing response/value/data or a raised
exception).  A present-but-short byte string is rejected by the explicit
length check; otherwise the layout is parsed after the 8-byte
discriminator and the price derived from the virtual reserves. -/
def get_bonding_curve_state (resp : Option (List ℕ)) : Option CurveState :=
  match resp with
  | none => none
  | some data =>
    if data.length < 8 + bondingCurveLayoutSize then none
    else
      let vtok := readU64 data 8
      let vsol := readU64 data 16
      let rtok := readU64 data 24
      let rsol := readU64 data 32
      let supply := readU64 data 40
      let complete := data.getD 48 0 != 0
      let price : ℚ :=
        if 0 < vtok then ((vsol : ℚ) / (vtok : ℚ)) * ((10 : ℚ) ^ 6 / (10 : ℚ) ^ 9)
        else 0
      some ⟨vtok, vsol, rtok, rsol, supply, complete, price⟩

/-- Modelled from the documented semantics of the external Solana RPC
method `getSignaturesForAddress` (the wire-level client is an external
collaborator, spec section 6): `history` is the wallet's full signature
list newest-first; the call returns up to `limit` signatures, newest-first,
and when `before` is given it starts the backward search from that
signature, i.e. returns only signatures strictly older than it. -/
def get_signatures_for_address (history : List String) (before : Option String)
    (limit : ℕ) : List String :=
  match before with
  | none => history.take limit
  | some b => (((history.dropWhile (fun s => s != b)).drop 1).take limit)

/-- One scan step of the creation scanner (pump_bot.py lines 405-437):
fetch signatures with `before = last_tx_check_sig` and `limit = 20`; when
the batch is non-empty the new watermark is the first (newest) fetched
signature, otherwise the watermark is kept.  Returns the new watermark and
the fetched batch. -/
def scanStep (history : List String) (last_tx_check_sig : Option String) :
    Option String × List String :=
  let recent := get_signatures_for_address history last_tx_check_sig 20
  match recent with
  | [] => (last_tx_check_sig, [])
  | s :: _ => (some s, recent)

/-- Rendering of a status to its Python string. -/
def statusStr : Status → String
  | .monitoring => "monitoring"
  | .sell_failed => "sell_failed"
  | .sold => "sold"
  | .missed_raydium => "missed_raydium"
  | .emptied => "emptied"
  | .failed_max_retries => "failed_max_retries"

/-- Rendering of a rational as numerator/denominator text (stands in for
the decimal text `json.dump` would emit; `save_state`'s disk effect does
not depend on the concrete digits). -/
def ratStr (q : ℚ) : String :=
  toString q.num ++ "/" ++ toString q.den

/-- Serialization of one record, field order as in the Python dict. -/
def serializeRecord (r : TokenRecord) : String :=
  "(bonding_curve=" ++ r.bonding_curve ++
    ",created_at=" ++ ratStr r.created_at ++
    ",status=" ++ statusStr r.status ++
    ",dev_ata=" ++ r.dev_ata ++
    ",sell_attempts=" ++ toString r.sell_attempts ++
    ",decimals=" ++ toString r.decimals ++
    ",sell_tx=" ++ (match r.sell_tx with | none => "null" | some s => s) ++
    ",last_value_sol=" ++ ratStr r.last_value_sol ++
    ",last_check_time=" ++ ratStr r.last_check_time ++ ")"

/-- Serialization of the registry (the `json.dump(state_to_save, f)` text,
abstracted to a brace-free rendering). -/
def serialize (reg : Registry) : String :=
  "(" ++ String.intercalate ","
    (reg.map (fun kv => kv.1 ++ "=" ++ serializeRecord kv.2)) ++ ")"

/-- Outcome of the `json.loads(json.dumps(...))` deep copy inside
`save_state`'s lock (pump_bot.py lines 100-106). -/
inductive SerializeOutcome
  | ok
  | fail
deriving DecidableEq, Repr

/-- Outcome of the file write in `save_state` (pump_bot.py lines 109-114).
`open(STATE_FILE, "w")` truncates the file on success before `json.dump`
streams the text, so an exception raised after the open but before the
dump finishes leaves only the prefix written so far; `abortAfter k` models
the write dying after `k` characters.  `openFail` models the open itself
raising (file untouched). -/
inductive WriteOutcome
  | openFail
  | abortAfter (k : ℕ)
  | complete
deriving DecidableEq, Repr

/-- Disk effect of `save_state` (pump_bot.py lines 95-114): the lock is
taken, the registry deep-copied and serialised, the lock released; a
serialization failure returns before any file I/O; then the state file is
opened for (truncating) write and the serialised text written.  Input
`disk` is the state-file contents before the call (`none` = absent);
the result is the contents after. -/
def save_state (disk : Option String) (reg : Registry)
    (ser : SerializeOutcome) (w : WriteOutcome) : Option String :=
  match ser with
  | .fail => disk
  | .ok =>
    match w with
    | .openFail => disk
    | .abortAfter k => some ((serialize reg).take k)
    | .complete => some (serialize reg)

/-- What `json.load` produced in `load_state`, when it produced anything:
a JSON object (whose entries, unvalidated by the code, are modelled as a
registry) or any non-object JSON value. -/
inductive JValue
  | dict (entries : Registry)
  | nondict
deriving DecidableEq

/-- Outcome of reading the state file in `load_state` as distinguished by
its branches (pump_bot.py lines 116-140): file absent, open/read raised,
`json.JSONDecodeError`, or a parsed JSON value. -/
inductive JsonReadOutcome
  | missing
  | readError
  | decodeError
  | parsed (v : JValue)
deriving DecidableEq

/-- `load_state` (pump_bot.py lines 116-140): the new in-memory registry
given the file-read outcome and the previous in-memory registry.  Every
failure branch installs the empty registry; a parsed JSON object replaces
the registry wholesale. -/
def load_state (file : JsonReadOutcome) (_old : Registry) : Registry :=
  match file with
  | .missing => []
  | .readError => []
  | .decodeError => []
  | .parsed .nondict => []
  | .parsed (.dict entries) => entries

/-- The tunable settings used by the decision step (pump_bot.py lines
53-58), `Decimal` ones as rationals. -/
structure Config where
  sell_delay_seconds : ℚ
  take_profit_sol : ℚ
  max_sell_retries : ℕ
  slippage_percent : ℚ
deriving DecidableEq, Repr

/-- The cycle environment seen when processing one token: the current
time, the bonding-curve account bytes the RPC returned (`none` = every
path on which `get_bonding_curve_state` yields `None`), the balance RPC
outcome, and `execute_sell`'s result `(ok, signature)` for this cycle
(used only if a sell is actually submitted). -/
structure Env where
  now : ℚ
  curve_data : Option (List ℕ)
  balance_resp : RpcBalanceResult
  sell_ok : Bool
  sell_sig : Option String
deriving DecidableEq, Repr

/-- Observable side effects of processing one token, in program order:
`save snapshot` is a `save_state` call (recording this token's record as
persisted), `execSell amount minOut` is an `execute_sell` invocation with
its lamport arguments, `sleepRetry` is the `time.sleep(RETRY_DELAY_SECONDS)`
pause after a non-final failed attempt. -/
inductive Event
  | save (snapshot : TokenRecord)
  | execSell (amount_lamports : ℤ) (min_sol_output_lamports : ℤ)
  | sleepRetry
deriving DecidableEq, Repr

/-- The sell trigger (pump_bot.py lines 501-507): age at or past the sell
delay, or estimated value at or past the take-profit target. -/
def sellSignal (cfg : Config) (now created_at value : ℚ) : Bool :=
  decide (cfg.sell_delay_seconds ≤ now - created_at) ||
    decide (cfg.take_profit_sol ≤ value)

/-- The body of the per-token loop of `monitor_and_sell` (pump_bot.py
lines 454-570) for one token in one cycle, returning the updated record
and the event trace.  Faithful branch-for-branch: the copy is taken and
`last_check_time` refreshed for every record; non-live statuses are then
skipped; the mutations guarded by `continue` (missed_raydium, emptied,
pre-attempt failed_max_retries, the zero-min-output reset) skip the
end-of-iteration save at line 569-570, so they emit no save event; the
pre-submission save at line 538 and the end-of-iteration save after a
submission or a signal reset are emitted.  The in-dict re-checks under the
lock (`monitored_tokens.get(mint_str, ...)`) evaluate on the same record
since the loop is the only mutator and keys are never deleted. -/
def processToken (cfg : Config) (env : Env) (r : TokenRecord) :
    TokenRecord × List Event :=
  let r1 : TokenRecord := { r with last_check_time := env.now }
  if r.status = Status.monitoring ∨ r.status = Status.sell_failed then
    match get_bonding_curve_state env.curve_data with
    | none => (r1, [])
    | some cs =>
      if cs.is_complete then
        ({ r1 with status := Status.missed_raydium }, [])
      else
        let bal := get_token_balance env.balance_resp
        if bal ≤ 0 then
          if bal = 0 then ({ r1 with status := Status.emptied }, [])
          else (r1, [])
        else
          let value : ℚ := ((bal.toNat : ℚ) / (10 : ℚ) ^ r.decimals) *
            cs.price_sol_per_token
          let r2 : TokenRecord := { r1 with last_value_sol := value }
          if sellSignal cfg env.now r.created_at value then
            if cfg.max_sell_retries ≤ r.sell_attempts then
              ({ r2 with status := Status.failed_max_retries }, [])
            else
              let minOut : ℚ :=
                max 0 (value * ((100 : ℚ) - cfg.slippage_percent) / 100)
              let minOutLamports : ℤ := ⌊minOut * (10 : ℚ) ^ 9⌋
              if minOutLamports ≤ 0 then
                if r.status = Status.sell_failed then
                  ({ r2 with status := Status.monitoring, sell_attempts := 0 }, [])
                else (r2, [])
              else
                let r3 : TokenRecord := { r2 with sell_attempts := r.sell_attempts + 1 }
                if env.sell_ok then
                  let okTx : String := match env.sell_sig with
                    | some s => s
                    | none => "success_no_sig"
                  let r4 : TokenRecord :=
                    { r3 with status := Status.sold, sell_tx := some okTx }
                  (r4, [Event.save r3, Event.execSell bal minOutLamports, Event.save r4])
                else
                  let failTx : String := match env.sell_sig with
                    | some s => "failed_" ++ s
                    | none => "failed_no_sig"
                  if cfg.max_sell_retries ≤ r3.sell_attempts then
                    let r4 : TokenRecord :=
                      { r3 with status := Status.failed_max_retries, sell_tx := some failTx }
                    (r4, [Event.save r3, Event.execSell bal minOutLamports, Event.save r4])
                  else
                    let r4 : TokenRecord :=
                      { r3 with status := Status.sell_failed, sell_tx := some failTx }
                    (r4, [Event.save r3, Event.execSell bal minOutLamports,
                      Event.sleepRetry, Event.save r4])
          else
            if r.status = Status.sell_failed then
              ({ r2 with status := Status.monitoring, sell_attempts := 0 },
               [Event.save { r2 with status := Status.monitoring, sell_attempts := 0 }])
            else (r2, [])
  else (r1, [])

/-- Iterated cycles over one token: each element of `envs` is one cycle's
environment; traces concatenate in order. -/
def runCycles (cfg : Config) (envs : List Env) (r : TokenRecord) :
    TokenRecord × List Event :=
  match envs with
  | [] => (r, [])
  | e :: rest =>
    let step := processToken cfg e r
    let next := runCycles cfg rest step.1
    (next.1, step.2 ++ next.2)

/-- The record registered for a newly discovered mint (pump_bot.py lines
425-429): status monitoring, zero attempts, six decimals assumed, both
timestamps set to registration time. -/
def freshRecord (bonding_curve dev_ata : String) (now : ℚ) : TokenRecord :=
  { bonding_curve := bonding_curve,
    created_at := now,
    status := Status.monitoring,
    dev_ata := dev_ata,
    sell_attempts := 0,
    decimals := 6,
    sell_tx := none,
    last_value_sol := 0,
    last_check_time := now }

/-- Registration of newly discovered mints (pump_bot.py lines 416-434):
for each reported mint absent from the registry, insert a fresh record
(`pda` and `ata` are the pubkey-derivation collaborators for the bonding
curve and the wallet's associated token account). -/
def registerNewMints (pda ata : String → String) (now : ℚ)
    (mints : List String) (reg : Registry) : Registry :=
  match mints with
  | [] => reg
  | m :: rest =>
    if (lookupReg reg m).isSome then registerNewMints pda ata now rest reg
    else registerNewMints pda ata now rest (reg ++ [(m, freshRecord (pda m) (ata m) now)])

/-- Statuses skipped by the decision step (everything outside
monitoring/sell_failed). -/
def terminalStatus (s : Status) : Bool :=
  match s with
  | .monitoring => false
  | .sell_failed => false
  | _ => true

/-- The status-transition edges the claim (and spec section 4.4) lists:
monitoring to each of sold/missed_exit_window/emptied/sell_failed/
failed_max_retries, and sell_failed to each of monitoring/sold/
failed_max_retries (the spec's missed_exit_window is the code's
missed_raydium). -/
def claimedEdgeSpec : Status → Status → Bool
  | .monitoring, .sold => true
  | .monitoring, .missed_raydium => true
  | .monitoring, .emptied => true
  | .monitoring, .sell_failed => true
  | .monitoring, .failed_max_retries => true
  | .sell_failed, .monitoring => true
  | .sell_failed, .sold => true
  | .sell_failed, .failed_max_retries => true
  | _, _ => false

/-- The status-transition edges the code actually takes: the claimed set
plus sell_failed to missed_raydium and sell_failed to emptied (the
market-complete and balance-empty checks apply to sell_failed records
too). -/
def allowedEdge (a b : Status) : Bool :=
  claimedEdgeSpec a b ||
    (decide (a = Status.sell_failed) &&
      (decide (b = Status.missed_raydium) || decide (b = Status.emptied)))

/-! ## Concrete fixtures used by counterexamples and witnesses -/

/-- Bonding-curve account bytes: 8-byte discriminator, then
virtual_token_reserves = 2, virtual_sol_reserves = 4, remaining reserves
and supply 0, complete flag 0. -/
def dataA : List ℕ :=
  [0, 0, 0, 0, 0, 0, 0, 0,
   2, 0, 0, 0, 0, 0, 0, 0,
   4, 0, 0, 0, 0, 0, 0, 0,
   0, 0, 0, 0, 0, 0, 0, 0,
   0, 0, 0, 0, 0, 0, 0, 0,
   0, 0, 0, 0, 0, 0, 0, 0, 0]

/-- Same account bytes with the complete flag set. -/
def dataComplete : List ℕ :=
  [0, 0, 0, 0, 0, 0, 0, 0,
   2, 0, 0, 0, 0, 0, 0, 0,
   4, 0, 0, 0, 0, 0, 0, 0,
   0, 0, 0, 0, 0, 0, 0, 0,
   0, 0, 0, 0, 0, 0, 0, 0,
   0, 0, 0, 0, 0, 0, 0, 0, 1]

/-- The curve state parsed from `dataA`. -/
def csA : CurveState :=
  ⟨2, 4, 0, 0, 0, false, (4 : ℚ) / 2 * ((10 : ℚ) ^ 6 / (10 : ℚ) ^ 9)⟩

/-- The curve state parsed from `dataComplete`. -/
def csComplete : CurveState :=
  ⟨2, 4, 0, 0, 0, true, (4 : ℚ) / 2 * ((10 : ℚ) ^ 6 / (10 : ℚ) ^ 9)⟩

/-- The default settings of pump_bot.py lines 53-58: sell delay 15 s, take
profit 0.05 SOL, five retries, 25 percent slippage. -/
def defaultConfig : Config :=
  { sell_delay_seconds := 15, take_profit_sol := 1/20,
    max_sell_retries := 5, slippage_percent := 25 }

/-- A monitored record one attempt short of the retry bound. -/
def recNearMax : TokenRecord :=
  { bonding_curve := ("bc"), created_at := 0, status := Status.monitoring,
    dev_ata := ("ata"), sell_attempts := 4, decimals := 6, sell_tx := none,
    last_value_sol := 0, last_check_time := 0 }

/-- A monitored record already at the retry bound. -/
def recAtMax : TokenRecord := { recNearMax with sell_attempts := 5 }

/-- A sell_failed record with two recorded attempts. -/
def recFailed : TokenRecord :=
  { recNearMax with status := Status.sell_failed, sell_attempts := 2 }

/-- A terminal (sold) record. -/
def recSoldTerminal : TokenRecord :=
  { recNearMax with status := Status.sold, sell_tx := some ("oldsig") }

/-- A record already retired with exhausted retries. -/
def recRetired : TokenRecord :=
  { recNearMax with status := Status.failed_max_retries, sell_attempts := 5 }

/-- Cycle environment at t = 20 s: live curve `dataA`, wallet balance
3000000 raw units (3 tokens), sell submission succeeding with signature
sig1.  Estimated value is 3 * (4/2) * 10^(-3) = 0.006 SOL, so at t = 20
the age trigger (15 s) fires but the profit trigger (0.05) does not. -/
def envA : Env :=
  { now := 20, curve_data := some dataA,
    balance_resp := .response (some ("3000000")), sell_ok := true,
    sell_sig := some ("sig1") }

/-- Same environment at t = 10 s, before the age trigger. -/
def envEarly : Env := { envA with now := 10 }

/-- Same environment with the curve already complete. -/
def envComplete : Env := { envA with curve_data := some dataComplete }

/-- Same environment with a transient balance-RPC error. -/
def envNegBal : Env := { envA with balance_resp := .rpcErrorOther }

/-- Same environment with the token account reported missing (which
`get_token_balance` maps to balance 0). -/
def envZeroBal : Env := { envA with balance_resp := .rpcErrorNotFound }

/-- The record as persisted just before the sell submission in the
`envA`/`recNearMax` run (attempt counter already incremented). -/
def attemptRec : TokenRecord :=
  { recNearMax with sell_attempts := 5, last_value_sol := 3/500, last_check_time := 20 }

/-- The final record of the `envA`/`recNearMax` run: sold on the fifth and
final allowed attempt. -/
def soldRec : TokenRecord :=
  { recNearMax with status := Status.sold, sell_attempts := 5, sell_tx := some ("sig1"), last_value_sol := 3/500, last_check_time := 20 }

/-! ## Helper lemmas -/

/-- Parsing the live fixture bytes. -/
lemma curve_dataA : get_bonding_curve_state (some dataA) = some csA := rfl

/-- Parsing the completed fixture bytes. -/
lemma curve_dataComplete :
    get_bonding_curve_state (some dataComplete) = some csComplete := rfl

/-- A record whose status is outside monitoring/sell_failed is only
refreshed: `last_check_time` is set and nothing else happens. -/
lemma processToken_skips_terminal (cfg : Config) (env : Env) (r : TokenRecord)
    (h : terminalStatus r.status = true) :
    processToken cfg env r = ({ r with last_check_time := env.now }, []) := by
  have h1 : ¬ (r.status = Status.monitoring ∨ r.status = Status.sell_failed) := by
    rcases r with ⟨_, _, s, _⟩
    cases s <;> simp_all [terminalStatus]
  simp [processToken, h1]

/-- When the recorded attempt counter has reached the bound, no
`execute_sell` event can appear in the step's trace. -/
lemma processToken_no_exec_of_max (cfg : Config) (env : Env) (r : TokenRecord)
    (h : cfg.max_sell_retries ≤ r.sell_attempts) :
    ∀ a m, Event.execSell a m ∉ (processToken cfg env r).2 := by
  intro a m
  simp only [processToken]
  rcases hc : get_bonding_curve_state env.curve_data with _ | cs <;>
    simp only [hc] <;> split_ifs <;> simp_all

/-- Every step trace either contains no `execute_sell` event, or starts
with a `save_state` of this record with the attempt counter incremented. -/
lemma processToken_trace_shape (cfg : Config) (env : Env) (r : TokenRecord) :
    (∀ a m, Event.execSell a m ∉ (processToken cfg env r).2) ∨
    (∃ snap rest, (processToken cfg env r).2 = Event.save snap :: rest ∧
      snap.sell_attempts = r.sell_attempts + 1 ∧ snap.status = r.status) := by
  rcases hp : processToken cfg env r with ⟨rr, tr⟩
  simp only [hp]
  simp only [processToken] at hp
  rcases hc : get_bonding_curve_state env.curve_data with _ | cs <;>
    simp only [hc] at hp
  all_goals repeat' split at hp
  all_goals cases hp
  all_goals
    first
    | (right; exact ⟨_, _, rfl, rfl, rfl⟩)
    | (left; intro a m; simp)

/-- Branch evaluation: a successful sell submission.  The hypotheses name
each condition along the path; the conclusion is the full record and
trace. -/
lemma processToken_sell_success (cfg : Config) (env : Env) (r : TokenRecord)
    (cs : CurveState) (bal minL : ℤ) (value : ℚ) (sig : String)
    (hlive : r.status = Status.monitoring ∨ r.status = Status.sell_failed)
    (hc : get_bonding_curve_state env.curve_data = some cs)
    (hcomp : cs.is_complete = false)
    (hbal : get_token_balance env.balance_resp = bal)
    (hbpos : 0 < bal)
    (hval : ((bal.toNat : ℚ) / (10 : ℚ) ^ r.decimals) * cs.price_sol_per_token = value)
    (hsig : sellSignal cfg env.now r.created_at value = true)
    (hmax : r.sell_attempts < cfg.max_sell_retries)
    (hfl : (⌊max 0 (value * ((100 : ℚ) - cfg.slippage_percent) / 100) * (10 : ℚ) ^ 9⌋ : ℤ) = minL)
    (hpos : 0 < minL)
    (hok : env.sell_ok = true)
    (hsg : env.sell_sig = some sig) :
    processToken cfg env r =
      ({ r with status := Status.sold, sell_attempts := r.sell_attempts + 1, sell_tx := some sig, last_value_sol := value, last_check_time := env.now },
       [Event.save { r with sell_attempts := r.sell_attempts + 1, last_value_sol := value, last_check_time := env.now },
        Event.execSell bal minL,
        Event.save { r with status := Status.sold, sell_attempts := r.sell_attempts + 1, sell_tx := some sig, last_value_sol := value, last_check_time := env.now }]) := by
  simp only [processToken, hc, hbal, hval, hsig, hfl, hok, hsg]
  split_ifs with h1 h2 h3 h4 h5 h6 <;> first | rfl | omega | simp_all

/-- Full evaluation of the `envA`/`recNearMax` cycle: the fifth and final
allowed attempt succeeds; the record ends sold with the counter at the
bound; the attempt was persisted before submission. -/
lemma evalSellOk :
    processToken defaultConfig envA recNearMax =
      (soldRec, [Event.save attemptRec, Event.execSell 3000000 4500000, Event.save soldRec]) := by
  have h := processToken_sell_success defaultConfig envA recNearMax csA
      3000000 4500000 (3/500) ("sig1")
      (Or.inl rfl) curve_dataA rfl rfl (by decide)
      (by rw [show ((3000000 : ℤ).toNat : ℕ) = 3000000 from rfl]; norm_num [recNearMax, csA])
      (by simp only [sellSignal, defaultConfig, envA, recNearMax]; norm_num)
      (by decide)
      (by norm_num [defaultConfig, max_eq_right])
      (by decide) rfl rfl
  exact h.trans rfl

/-- Appending entries on the right never changes an existing lookup. -/
lemma lookupReg_append_left (reg l2 : Registry) (k : String) (r0 : TokenRecord)
    (h : lookupReg reg k = some r0) : lookupReg (reg ++ l2) k = some r0 := by
  induction reg with
  | nil => simp [lookupReg] at h
  | cons kv rest ih =>
    rw [List.cons_append]
    by_cases hk : kv.1 = k
    · simpa [lookupReg, hk] using h
    · rw [lookupReg] at h ⊢
      simp only [hk, if_false] at h ⊢
      exact ih h

/-- Registration preserves every existing record. -/
lemma registerNewMints_preserves (pda ata : String → String) (now : ℚ)
    (mints : List String) (reg : Registry) (k : String) (r0 : TokenRecord)
    (h : lookupReg reg k = some r0) :
    lookupReg (registerNewMints pda ata now mints reg) k = some r0 := by
  induction mints generalizing reg with
  | nil => simpa [registerNewMints] using h
  | cons m rest ih =>
    rw [registerNewMints]
    split_ifs with hm
    · exact ih reg h
    · exact ih _ (lookupReg_append_left reg _ k r0 h)

/-- Terminal statuses stay terminal across any number of cycles, with an
empty event trace. -/
lemma runCycles_terminal (cfg : Config) (envs : List Env) :
    ∀ r : TokenRecord, terminalStatus r.status = true →
      (runCycles cfg envs r).1.status = r.status ∧ (runCycles cfg envs r).2 = [] := by
  induction envs with
  | nil => intro r _; exact ⟨rfl, rfl⟩
  | cons e rest ih =>
    intro r h
    simp only [runCycles, processToken_skips_terminal cfg e r h]
    obtain ⟨h1, h2⟩ := ih { r with last_check_time := e.now } h
    exact ⟨h1, by simpa using h2⟩

/-! ## Claims -/

/-- C1, counterexample to the claim as stated: a record one attempt below
the bound whose final allowed sell submission succeeds reaches
`sell_attempts = MAX_SELL_RETRIES` with status `sold`, never
`failed_max_retries`, and stays `sold` in later cycles. -/
theorem C1_counterexample :
    recNearMax.status = Status.monitoring ∧
    defaultConfig.max_sell_retries ≤ (processToken defaultConfig envA recNearMax).1.sell_attempts ∧
    (processToken defaultConfig envA recNearMax).1.status = Status.sold ∧
    (processToken defaultConfig envA recNearMax).1.status ≠ Status.failed_max_retries ∧
    (runCycles defaultConfig [envA, envA] recNearMax).1.status = Status.sold := by
  have hterm := processToken_skips_terminal defaultConfig envA soldRec rfl
  refine ⟨rfl, ?_, ?_, ?_, ?_⟩
  · rw [evalSellOk]
    simp [soldRec, recNearMax, defaultConfig]
  · rw [evalSellOk]
    rfl
  · rw [evalSellOk]
    simp [soldRec, recNearMax]
  · simp only [runCycles, evalSellOk, hterm]
    rfl

/-- C1 (amended): once `sell_attempts` has reached the bound while the
record is still live, the step never invokes `execute_sell` and marks the
record `failed_max_retries` as soon as an active sell signal is evaluated;
and a `failed_max_retries` record stays in that status forever with no
`execute_sell` invocation in any later cycle. -/
theorem C1_amended :
    (∀ cfg env r, cfg.max_sell_retries ≤ r.sell_attempts →
      ∀ a m, Event.execSell a m ∉ (processToken cfg env r).2) ∧
    (∀ cfg env r cs value,
      (r.status = Status.monitoring ∨ r.status = Status.sell_failed) →
      cfg.max_sell_retries ≤ r.sell_attempts →
      get_bonding_curve_state env.curve_data = some cs →
      cs.is_complete = false →
      0 < get_token_balance env.balance_resp →
      ((get_token_balance env.balance_resp).toNat : ℚ) / (10 : ℚ) ^ r.decimals * cs.price_sol_per_token = value →
      sellSignal cfg env.now r.created_at value = true →
      (processToken cfg env r).1.status = Status.failed_max_retries) ∧
    (∀ cfg envs r, r.status = Status.failed_max_retries →
      (runCycles cfg envs r).1.status = Status.failed_max_retries ∧
      ∀ a m, Event.execSell a m ∉ (runCycles cfg envs r).2) := by
  refine ⟨?_, ?_, ?_⟩
  · exact processToken_no_exec_of_max
  · intro cfg env r cs value hlive hmax hc hcomp hbpos hval hsig
    simp only [processToken, hc, hval, hsig]
    split_ifs <;> first | rfl | omega | simp_all
  · intro cfg envs r h
    have hterm : terminalStatus r.status = true := by simp [terminalStatus, h]
    obtain ⟨h1, h2⟩ := runCycles_terminal cfg envs r hterm
    exact ⟨h1.trans h, fun a m => by rw [h2]; simp⟩

/-- C1 witness: the amended theorem applied at the fixtures: a live record
at the bound yields no submission and retires on an active signal, and a
retired record never submits again. -/
theorem C1_amended_witness :
    (defaultConfig.max_sell_retries ≤ recAtMax.sell_attempts ∧
      Event.execSell 3000000 4500000 ∉ (processToken defaultConfig envA recAtMax).2) ∧
    (processToken defaultConfig envA recAtMax).1.status = Status.failed_max_retries ∧
    (recRetired.status = Status.failed_max_retries ∧
      (runCycles defaultConfig [envA, envA] recRetired).1.status = Status.failed_max_retries) := by
  refine ⟨⟨by decide, C1_amended.1 defaultConfig envA recAtMax (by decide) 3000000 4500000⟩, ?_, rfl, ?_⟩
  · exact C1_amended.2.1 defaultConfig envA recAtMax csA (3/500) (Or.inl rfl) (by decide)
      curve_dataA rfl (by decide)
      (by rw [show ((get_token_balance envA.balance_resp).toNat : ℕ) = 3000000 from rfl]
          norm_num [recAtMax, recNearMax, csA])
      (by simp only [sellSignal, defaultConfig, envA, recAtMax, recNearMax]; norm_num)
  · exact (C1_amended.2.2 defaultConfig [envA, envA] recRetired rfl).1

/-- C2, counterexample to the claimed edge set: a `sell_failed` record
whose market completes transitions to `missed_raydium`
(missed_exit_window), an edge absent from the claim's list. -/
theorem C2_counterexample :
    recFailed.status = Status.sell_failed ∧
    (processToken defaultConfig envComplete recFailed).1.status = Status.missed_raydium ∧
    claimedEdgeSpec Status.sell_failed Status.missed_raydium = false :=
  ⟨rfl, rfl, rfl⟩

/-- C2 (amended): every step changes `status` only along the code's edge
set (the claimed edges plus `sell_failed` to `missed_raydium`/`emptied`);
terminal records are never mutated beyond `last_check_time`; registration
never overwrites an existing record. -/
theorem C2_amended :
    (∀ cfg env r, (processToken cfg env r).1.status = r.status ∨
        allowedEdge r.status (processToken cfg env r).1.status = true) ∧
    (∀ cfg env r, terminalStatus r.status = true →
        (processToken cfg env r).1 = { r with last_check_time := env.now } ∧
        (processToken cfg env r).2 = []) ∧
    (∀ pda ata now mints reg k r0, lookupReg reg k = some r0 →
        lookupReg (registerNewMints pda ata now mints reg) k = some r0) := by
  refine ⟨?_, ?_, ?_⟩
  · intro cfg env r
    simp only [processToken]
    by_cases hl : r.status = Status.monitoring ∨ r.status = Status.sell_failed
    · rcases hc : get_bonding_curve_state env.curve_data with _ | cs <;>
        simp only [hc, hl, if_true] <;> (try split_ifs) <;>
        (try simp) <;>
        (rcases hl with h | h <;> simp_all [allowedEdge, claimedEdgeSpec])
    · simp [hl]
  · intro cfg env r h
    rw [processToken_skips_terminal cfg env r h]
    exact ⟨rfl, rfl⟩
  · exact registerNewMints_preserves

/-- C2 witness: a terminal record is only refreshed, and registering new
mints over a registry keeps the existing record. -/
theorem C2_amended_witness :
    (terminalStatus recSoldTerminal.status = true ∧
      (processToken defaultConfig envA recSoldTerminal).1 =
        { recSoldTerminal with last_check_time := envA.now }) ∧
    lookupReg (registerNewMints (fun s => s) (fun s => s) 20 [("m1"), ("m2")]
      [(("m1"), recNearMax)]) ("m1") = some recNearMax :=
  ⟨⟨rfl, ((C2_amended.2.1 defaultConfig envA recSoldTerminal rfl).1)⟩,
    C2_amended.2.2 (fun s => s) (fun s => s) 20 [("m1"), ("m2")]
      [(("m1"), recNearMax)] ("m1") recNearMax rfl⟩

/-- C3, code bug: the scanner passes the watermark as the `before`
parameter of the signatures RPC, which returns signatures strictly OLDER
than it (newest-first).  Starting from watermark s2 over history
[s3, s2, s1] (s3 newest, just arrived), the fetched batch is [s1] — the
new creation s3 is never fetched — and the watermark moves back to s1,
older history than s2. -/
theorem C3_watermark_rewinds :
    scanStep [("s2"), ("s1")] none = (some ("s2"), [("s2"), ("s1")]) ∧
    scanStep [("s3"), ("s2"), ("s1")] (some ("s2")) = (some ("s1"), [("s1")]) ∧
    ("s3") ∉ (scanStep [("s3"), ("s2"), ("s1")] (some ("s2"))).2 ∧
    List.indexOf ("s1") [("s3"), ("s2"), ("s1")] = 2 ∧
    List.indexOf ("s2") [("s3"), ("s2"), ("s1")] = 1 := by
  refine ⟨rfl, rfl, ?_, rfl, rfl⟩
  rw [show (scanStep [("s3"), ("s2"), ("s1")] (some ("s2"))).2 = [("s1")] from rfl]
  simp

/-- C4, counterexample to the claim as stated: an account-not-found RPC
error makes `get_token_balance` return 0, not a negative sentinel, so
not-found is indistinguishable from a legitimate zero balance. -/
theorem C4_counterexample :
    get_token_balance RpcBalanceResult.rpcErrorNotFound = 0 ∧
    ¬ get_token_balance RpcBalanceResult.rpcErrorNotFound < 0 :=
  ⟨rfl, by decide⟩

set_option maxHeartbeats 1000000 in
/-- C4 (amended): transient RPC and unexpected errors return the negative
sentinel -1; account-not-found returns 0 and is treated as a legitimate
empty balance; the decision step skips the cycle without any mutation
beyond `last_check_time` on a negative balance, and transitions a live
record to `emptied` exactly on a zero balance. -/
theorem C4_amended :
    (get_token_balance RpcBalanceResult.rpcErrorOther = -1 ∧
      get_token_balance RpcBalanceResult.unexpectedError = -1 ∧
      get_token_balance RpcBalanceResult.rpcErrorNotFound = 0) ∧
    (∀ cfg env r cs,
      (r.status = Status.monitoring ∨ r.status = Status.sell_failed) →
      get_bonding_curve_state env.curve_data = some cs →
      cs.is_complete = false →
      get_token_balance env.balance_resp < 0 →
      processToken cfg env r = ({ r with last_check_time := env.now }, [])) ∧
    (∀ cfg env r cs,
      (r.status = Status.monitoring ∨ r.status = Status.sell_failed) →
      get_bonding_curve_state env.curve_data = some cs →
      cs.is_complete = false →
      get_token_balance env.balance_resp = 0 →
      processToken cfg env r =
        ({ r with status := Status.emptied, last_check_time := env.now }, [])) := by
  refine ⟨⟨rfl, rfl, rfl⟩, ?_, ?_⟩
  · intro cfg env r cs hlive hc hcomp hneg
    simp only [processToken, hc]
    split_ifs <;> first | omega | rfl | simp_all
  · intro cfg env r cs hlive hc hcomp hzero
    simp only [processToken, hc]
    split_ifs <;> first | omega | rfl | simp_all

/-- C4 witness: a transient balance error skips the cycle; an
account-not-found zero balance empties a sell_failed record. -/
theorem C4_amended_witness :
    (get_token_balance envNegBal.balance_resp < 0 ∧
      processToken defaultConfig envNegBal recNearMax =
        ({ recNearMax with last_check_time := envNegBal.now }, [])) ∧
    (get_token_balance envZeroBal.balance_resp = 0 ∧
      processToken defaultConfig envZeroBal recFailed =
        ({ recFailed with status := Status.emptied, last_check_time := envZeroBal.now }, [])) :=
  ⟨⟨by decide, C4_amended.2.1 defaultConfig envNegBal recNearMax csA (Or.inl rfl)
      curve_dataA rfl (by decide)⟩,
   ⟨rfl, C4_amended.2.2 defaultConfig envZeroBal recFailed csA (Or.inr rfl)
      curve_dataA rfl rfl⟩⟩

/-- C5, counterexample to the claim as stated: a write failure straight
after the truncating open leaves an empty file, destroying the previous
snapshot. -/
theorem C5_counterexample :
    save_state (some ("OLD")) [] SerializeOutcome.ok (WriteOutcome.abortAfter 0) = some ("") ∧
    some ("") ≠ some ("OLD") :=
  ⟨rfl, by simp⟩

/-- C5 (amended): a serialization failure, or a failure to open the file,
leaves the on-disk snapshot unchanged; a completed write replaces it with
the serialised registry; but a failure after the truncating open leaves
only the prefix written so far. -/
theorem C5_amended :
    (∀ disk reg w, save_state disk reg SerializeOutcome.fail w = disk) ∧
    (∀ disk reg, save_state disk reg SerializeOutcome.ok WriteOutcome.openFail = disk) ∧
    (∀ disk reg, save_state disk reg SerializeOutcome.ok WriteOutcome.complete =
      some (serialize reg)) ∧
    (∀ disk reg k, save_state disk reg SerializeOutcome.ok (WriteOutcome.abortAfter k) =
      some ((serialize reg).take k)) :=
  ⟨fun _ _ _ => rfl, fun _ _ => rfl, fun _ _ => rfl, fun _ _ _ => rfl⟩

/-- Closed form for the decimal-exponent factor. -/
lemma tenPowSplit : (10 : ℚ) ^ ((6 : ℤ) - 9) = (10 : ℚ) ^ 6 / (10 : ℚ) ^ 9 := by
  rw [zpow_sub₀ (by norm_num : (10 : ℚ) ≠ 0)]
  norm_num

/-- C6 (confirmed): every successfully decoded bonding-curve state carries
price (virtual_sol / virtual_token) * 10^(6 - 9) when the virtual token
reserve is positive, and price exactly 0 when it is zero. -/
theorem C6_price_formula :
    ∀ data st, get_bonding_curve_state (some data) = some st →
      (0 < st.virtual_token_reserves →
        st.price_sol_per_token =
          ((st.virtual_sol_reserves : ℚ) / (st.virtual_token_reserves : ℚ)) *
            (10 : ℚ) ^ ((6 : ℤ) - 9)) ∧
      (st.virtual_token_reserves = 0 → st.price_sol_per_token = 0) := by
  intro data st h
  simp only [get_bonding_curve_state] at h
  split at h
  · exact absurd h (by simp)
  · rw [Option.some.injEq] at h
    subst h
    constructor
    · intro hpos
      simp only at hpos ⊢
      rw [if_pos hpos, tenPowSplit]
    · intro hz
      simp only at hz ⊢
      rw [if_neg (by omega)]

/-- C6 witness: the formula evaluated on the fixture bytes. -/
theorem C6_price_formula_witness :
    get_bonding_curve_state (some dataA) = some csA ∧
    0 < csA.virtual_token_reserves ∧
    csA.price_sol_per_token =
      ((csA.virtual_sol_reserves : ℚ) / (csA.virtual_token_reserves : ℚ)) *
        (10 : ℚ) ^ ((6 : ℤ) - 9) :=
  ⟨curve_dataA, by decide, (C6_price_formula dataA csA curve_dataA).1 (by decide)⟩

set_option maxHeartbeats 1000000 in
/-- C7 (confirmed): a sell_failed record whose trigger evaluation finds no
active signal transitions back to monitoring with the attempt counter
reset to 0; and in every step the attempt counter is non-decreasing except
exactly on that sell_failed-to-monitoring reset. -/
theorem C7_reset_and_monotonic :
    (∀ cfg env r cs value,
      r.status = Status.sell_failed →
      get_bonding_curve_state env.curve_data = some cs →
      cs.is_complete = false →
      0 < get_token_balance env.balance_resp →
      ((get_token_balance env.balance_resp).toNat : ℚ) / (10 : ℚ) ^ r.decimals * cs.price_sol_per_token = value →
      sellSignal cfg env.now r.created_at value = false →
      (processToken cfg env r).1.status = Status.monitoring ∧
      (processToken cfg env r).1.sell_attempts = 0) ∧
    (∀ cfg env r,
      r.sell_attempts ≤ (processToken cfg env r).1.sell_attempts ∨
      (r.status = Status.sell_failed ∧
        (processToken cfg env r).1.status = Status.monitoring ∧
        (processToken cfg env r).1.sell_attempts = 0)) := by
  constructor
  · intro cfg env r cs value hsf hc hcomp hbpos hval hsig
    simp only [processToken, hc, hval, hsig]
    split_ifs <;> first | (exact ⟨rfl, rfl⟩) | omega | simp_all
  · intro cfg env r
    simp only [processToken]
    rcases hc : get_bonding_curve_state env.curve_data with _ | cs <;>
      simp only [hc] <;> (try split_ifs) <;> (try simp) <;>
      first | (left; omega) | (right; simp_all)

/-- C7 witness: at t = 10 s with value 0.006 SOL neither trigger fires and
the sell_failed fixture resets to monitoring with zero attempts. -/
theorem C7_reset_witness :
    recFailed.status = Status.sell_failed ∧
    sellSignal defaultConfig envEarly.now recFailed.created_at (3/500) = false ∧
    (processToken defaultConfig envEarly recFailed).1.status = Status.monitoring ∧
    (processToken defaultConfig envEarly recFailed).1.sell_attempts = 0 := by
  have hsig : sellSignal defaultConfig envEarly.now recFailed.created_at (3/500) = false := by
    simp only [sellSignal, defaultConfig, envEarly, envA, recFailed, recNearMax]
    norm_num
  have hval : ((get_token_balance envEarly.balance_resp).toNat : ℚ) / (10 : ℚ) ^ recFailed.decimals * csA.price_sol_per_token = 3/500 := by
    rw [show ((get_token_balance envEarly.balance_resp).toNat : ℕ) = 3000000 from rfl]
    norm_num [recFailed, recNearMax, csA]
  obtain ⟨h1, h2⟩ := C7_reset_and_monotonic.1 defaultConfig envEarly recFailed csA (3/500)
    rfl curve_dataA rfl (by decide) hval hsig
  exact ⟨rfl, hsig, h1, h2⟩

/-- C8 (confirmed): whenever a step's trace contains an `execute_sell`
invocation, a `save_state` of this record with the attempt counter already
incremented occurs strictly earlier in the trace. -/
theorem C8_persist_before_submit :
    ∀ cfg env r pre post a m,
      (processToken cfg env r).2 = pre ++ Event.execSell a m :: post →
      ∃ snap pre1 pre2, pre = pre1 ++ Event.save snap :: pre2 ∧
        snap.sell_attempts = r.sell_attempts + 1 ∧ snap.status = r.status := by
  intro cfg env r pre post a m heq
  rcases processToken_trace_shape cfg env r with h | ⟨snap, rest, hshape, h1, h2⟩
  · have hmem : Event.execSell a m ∈ (processToken cfg env r).2 := by
      rw [heq]
      exact List.mem_append_right _ (List.mem_cons_self _ _)
    exact absurd hmem (h a m)
  · cases pre with
    | nil =>
      rw [hshape, List.nil_append] at heq
      exact absurd (List.cons_eq_cons.mp heq).1 (by simp)
    | cons e pre2 =>
      have heq2 : Event.save snap :: rest = e :: (pre2 ++ Event.execSell a m :: post) := by
        rw [← hshape, heq, List.cons_append]
      obtain ⟨he, -⟩ := List.cons_eq_cons.mp heq2
      exact ⟨snap, [], pre2, by rw [List.nil_append, he], h1, h2⟩

/-- C8 witness: in the concrete successful run the trace is exactly
save-submit-save, and the save preceding the submission carries the
incremented counter. -/
theorem C8_persist_before_submit_witness :
    (processToken defaultConfig envA recNearMax).2 =
      [Event.save attemptRec] ++ Event.execSell 3000000 4500000 :: [Event.save soldRec] ∧
    ∃ snap pre1 pre2, [Event.save attemptRec] = pre1 ++ Event.save snap :: pre2 ∧
      snap.sell_attempts = recNearMax.sell_attempts + 1 ∧ snap.status = recNearMax.status := by
  have htr : (processToken defaultConfig envA recNearMax).2 =
      [Event.save attemptRec] ++ Event.execSell 3000000 4500000 :: [Event.save soldRec] := by
    rw [evalSellOk]
    rfl
  exact ⟨htr, C8_persist_before_submit defaultConfig envA recNearMax _ _ _ _ htr⟩

/-- C9 (confirmed): load_state installs the empty registry on a missing
file, an unreadable file, undecodable JSON, or a non-object JSON value,
and replaces the registry wholesale with a parsed object. -/
theorem C9_load_fail_open :
    ∀ old entries,
      load_state JsonReadOutcome.missing old = [] ∧
      load_state JsonReadOutcome.readError old = [] ∧
      load_state JsonReadOutcome.decodeError old = [] ∧
      load_state (JsonReadOutcome.parsed JValue.nondict) old = [] ∧
      load_state (JsonReadOutcome.parsed (JValue.dict entries)) old = entries :=
  fun _ _ => ⟨rfl, rfl, rfl, rfl, rfl⟩

/-- C10 (confirmed): every step refreshes `last_check_time` to the cycle
time, and a terminal-status record is changed in no other field, with no
side effects. -/
theorem C10_frame_last_check_time :
    ∀ cfg env r,
      (processToken cfg env r).1.last_check_time = env.now ∧
      (terminalStatus r.status = true →
        (processToken cfg env r).1 = { r with last_check_time := env.now } ∧
        (processToken cfg env r).2 = []) := by
  intro cfg env r
  constructor
  · simp only [processToken]
    rcases hc : get_bonding_curve_state env.curve_data with _ | cs <;>
      simp only [hc] <;> (try split_ifs) <;> rfl
  · intro h
    rw [processToken_skips_terminal cfg env r h]
    exact ⟨rfl, rfl⟩

/-- C10 witness: the frame property applied to the sold fixture. -/
theorem C10_frame_witness :
    terminalStatus recSoldTerminal.status = true ∧
    (processToken defaultConfig envA recSoldTerminal).1 =
      { recSoldTerminal with last_check_time := envA.now } ∧
    (processToken defaultConfig envA recSoldTerminal).2 = [] :=
  ⟨rfl, ((C10_frame_last_check_time defaultConfig envA recSoldTerminal).2 rfl).1,
    ((C10_frame_last_check_time defaultConfig envA recSoldTerminal).2 rfl).2⟩

end PumpBot
